import Mathlib

/-!
Shallow embedding of `src/src/main.rs` of the zik music-catalogue CLI,
with theorems checking the natural-language specification against it.

Modelling conventions:
* SQLite tables are Lean lists of row structures; row ids follow the
  SQLite rowid allocation for `INTEGER PRIMARY KEY` tables (one more than
  the largest rowid in use, see `next_id`).
* The filesystem and the three tag-reading libraries are oracles: a
  `FileModel` records what each call the Rust code makes would return for
  the file at hand, and the embedded `read_from_path` consumes those
  outcomes exactly in the order the source does.
* Fallible Rust functions returning `Result` become `Except`-valued
  functions; functions that mutate the connection become state-passing
  functions. The savepoint/commit discipline of `cmd_scan` is modelled by
  `cmd_scan` returning the connection state after the call: the pending
  state on commit, the original state when an error aborts the savepoint.
-/

namespace Zik

/-! ## Config store (`Config`, `get_library_path`, `cmd_config` set branch) -/

/-- A value stored in the `config` table: `Config::Library` stores the path
as text, `Config::ScanParallelism` stores an integer (`ToSql` impl). -/
inductive ConfigValue where
  | str (s : String)
  | int (n : Int)
deriving DecidableEq, Repr

/-- The `config` table: rows of `key, value` with `key TEXT UNIQUE`. -/
abbrev ConfigTable := List (String × ConfigValue)

/-- `SELECT value FROM config WHERE key = $key` on the embedded table. -/
def config_lookup (t : ConfigTable) (key : String) : Option ConfigValue :=
  (t.find? (fun kv => kv.1 == key)).map (fun kv => kv.2)

/-- `INSERT INTO config(key, value) VALUES(..) ON CONFLICT(key) DO UPDATE
SET value = excluded.value` on the embedded table. -/
def config_upsert (t : ConfigTable) (key : String) (v : ConfigValue) : ConfigTable :=
  if t.any (fun kv => kv.1 == key) then
    t.map (fun kv => if kv.1 == key then (kv.1, v) else kv)
  else
    t ++ [(key, v)]

/-- Oracle for the filesystem calls `get_library_path` makes on its input
path: `Path::exists`, `Path::is_dir`, `Path::metadata` (success or I/O
error), `fs::canonicalize` (`some` canonical path, or `none` for an I/O
error). -/
structure FsPath where
  pathExists : Bool
  isDir : Bool
  metadataOk : Bool
  canonical : Option String
deriving DecidableEq, Repr

/-- `GetLibraryPathError` from the source (the `DoestNotExist` typo is the
spelling used by the source); `ioErr` covers the `IO(io::Error)` variant. -/
inductive GetLibraryPathError where
  | doestNotExist (path : String)
  | notADirectory (path : String)
  | ioErr
deriving DecidableEq, Repr

/-- `get_library_path(value)`: reject a path that does not exist, then one
that is not a directory, then probe `metadata()`, then return the
canonicalized path. -/
def get_library_path (fs : FsPath) (value : String) :
    Except GetLibraryPathError String :=
  if !fs.pathExists then
    .error (.doestNotExist value)
  else if !fs.isDir then
    .error (.notADirectory value)
  else if !fs.metadataOk then
    .error .ioErr
  else
    match fs.canonical with
    | none => .error .ioErr
    | some c => .ok c

/-- `CommandConfigError` from the source; the `SQLite` and parse-error
payloads are irrelevant to the claims and dropped. -/
inductive CommandConfigError where
  | sqlite
  | invalidKey (key : String)
  | noValue (key : String)
  | getLibraryPath (err : GetLibraryPathError)
  | invalidScanParallelismValue
deriving DecidableEq, Repr

/-- Helper for `parse_usize`: consume decimal digits, accumulating the
value; any non-digit character fails the parse. -/
def parse_digits : List Char → Nat → Option Nat
  | [], acc => some acc
  | c :: cs, acc =>
    if c.isDigit then parse_digits cs (acc * 10 + (c.toNat - 48)) else none

/-- `value.parse::<usize>()`: an optional leading plus sign followed by
one or more decimal digits (`FromStr` for unsigned integers). Written
structurally over the character list so it reduces in the kernel. -/
def parse_usize (s : String) : Option Nat :=
  match s.data with
  | [] => none
  | '+' :: [] => none
  | '+' :: c :: cs => parse_digits (c :: cs) 0
  | l => parse_digits l 0

/-- The set branch of `cmd_config` (both `key` and `value` present): build
the validated `Config` value, then run the single upsert. Returns the
config table after the call and the error surfaced, if any; an error
return in the source happens before `db.execute`, leaving the table as it
was. -/
def cmd_config_set (t : ConfigTable) (fs : FsPath) (key value : String) :
    ConfigTable × Option CommandConfigError :=
  match key with
  | "library" =>
    match get_library_path fs value with
    | .error e => (t, some (.getLibraryPath e))
    | .ok dir => (config_upsert t key (.str dir), none)
  | "scan_parallelism" =>
    match parse_usize value with
    | none => (t, some .invalidScanParallelismValue)
    | some n => (config_upsert t key (.int (Int.ofNat n)), none)
  | _ => (t, some (.invalidKey key))

/-! ## Metadata extractor (`Metadata`, `Metadata::read_from_path`) -/

/-- The canonical `Metadata` record produced by the extractor. -/
structure Metadata where
  artist : Option String
  album : Option String
  album_artist : Option String
  year : Option String
  track_name : Option String
  track_number : Nat
deriving DecidableEq, Repr

/-- A FLAC tag: the ordered list of vorbis comments, each a key/value
pair (a key may repeat). -/
structure FlacTag where
  comments : List (String × String)
deriving DecidableEq, Repr

/-- `Metadata::get_vorbis_comment`: `tag.get_vorbis(key)` yields the
values stored under `key` in order; take the first, or `none` when the
key is absent. -/
def get_vorbis_comment (tag : FlacTag) (key : String) : Option String :=
  ((tag.comments.filter (fun c => c.1 == key)).map (fun c => c.2)).head?

/-- `value.parse::<usize>().unwrap_or(0)` applied to an optional vorbis
value, as in the `track_number` field of the FLAC branch. -/
def parse_track_number (v : Option String) : Nat :=
  match v with
  | none => 0
  | some s => (parse_usize s).getD 0

/-- The `Metadata` the FLAC branch of `read_from_path` builds from a
successfully parsed `metaflac::Tag`. -/
def flac_to_metadata (tag : FlacTag) : Metadata :=
  { artist := get_vorbis_comment tag "ARTIST"
    album := get_vorbis_comment tag "ALBUM"
    album_artist := get_vorbis_comment tag "ALBUMARTIST"
    year := get_vorbis_comment tag "DATE"
    track_name := get_vorbis_comment tag "TITLE"
    track_number := parse_track_number (get_vorbis_comment tag "TRACK_NUMBER") }

/-- An ID3 tag, as exposed by the accessors the code calls on
`id3::Tag`: `artist()`, `album()`, `album_artist()`, `year()` (an
integer), `title()`, `track()` (an unsigned integer). -/
structure Id3Tag where
  artist : Option String
  album : Option String
  album_artist : Option String
  year : Option Int
  title : Option String
  track : Option Nat
deriving DecidableEq, Repr

/-- The `Metadata` the ID3 branch builds from a successfully parsed
`id3::Tag`: the year is rendered as decimal text, a missing track number
becomes `0`. -/
def id3_to_metadata (tag : Id3Tag) : Metadata :=
  { artist := tag.artist
    album := tag.album
    album_artist := tag.album_artist
    year := tag.year.map (fun n => toString n)
    track_name := tag.title
    track_number := tag.track.getD 0 }

/-- An MP4 text field (`mp4parse::TryString`): a byte string that either
decodes as UTF-8 to `valid s` or fails to decode (`invalid`). -/
inductive Mp4Str where
  | valid (s : String)
  | invalid
deriving DecidableEq, Repr

/-- `Metadata::get_mp4_string`: decode failure degrades the field to
absent. -/
def get_mp4_string (v : Option Mp4Str) : Option String :=
  match v with
  | some (.valid s) => some s
  | some .invalid => none
  | none => none

/-- The iTunes metadata atoms found in `user_data.meta`. -/
structure Mp4Meta where
  artist : Option Mp4Str
  album : Option Mp4Str
  album_artist : Option Mp4Str
  year : Option Mp4Str
  title : Option Mp4Str
  track_number : Option Nat
deriving DecidableEq, Repr

/-- What `mp4parse::read_mp4` returns on success: `root.userdata` is an
optional fallible `UserData`, whose `meta` field is the optional
metadata atom set. The `Err` payload of the inner result is irrelevant. -/
structure Mp4Root where
  userdata : Option (Except Unit (Option Mp4Meta))
deriving Repr

/-- The `Metadata` the MP4 branch builds from a `meta` atom set. -/
def mp4_to_metadata (m : Mp4Meta) : Metadata :=
  { artist := get_mp4_string m.artist
    album := get_mp4_string m.album
    album_artist := get_mp4_string m.album_artist
    year := get_mp4_string m.year
    track_name := get_mp4_string m.title
    track_number := m.track_number.getD 0 }

/-- Outcome of one library probe call (`metaflac::Tag::read_from`,
`id3::Tag::read_from`, `mp4parse::read_mp4`): a parsed value, a parse
failure ("not this format"), or an underlying I/O failure surfaced as the
error value of the library. The source matches all errors with `Err(_)`,
so `parseError` and `ioError` flow identically there; keeping them
distinct lets the theorems talk about I/O errors raised inside a
reader. -/
inductive ProbeOutcome (α : Type) where
  | ok (value : α)
  | parseError
  | ioError
deriving DecidableEq, Repr

/-- Oracle for every call `read_from_path` makes for one file:
`File::open`, the FLAC probe, the first `seek(Start(0))`, the ID3 probe,
the second `seek(Start(0))`, the MP4 probe. -/
structure FileModel where
  openOk : Bool
  flac : ProbeOutcome FlacTag
  seek1Ok : Bool
  id3 : ProbeOutcome Id3Tag
  seek2Ok : Bool
  mp4 : ProbeOutcome Mp4Root
deriving Repr

/-- `MetadataReadError`: the only variant is `IO(io::Error)`. -/
inductive MetadataReadError where
  | ioErr
deriving DecidableEq, Repr

/-- The `flac_metadata` binding of `read_from_path`: a successful
`metaflac` parse yields the mapped record; `Err(_) => None`. -/
def flac_probe (r : ProbeOutcome FlacTag) : Option Metadata :=
  match r with
  | .ok tag => some (flac_to_metadata tag)
  | _ => none

/-- The `mp3_metadata` binding: `Err(_) => None`. -/
def id3_probe (r : ProbeOutcome Id3Tag) : Option Metadata :=
  match r with
  | .ok tag => some (id3_to_metadata tag)
  | _ => none

/-- The `mp4_metadata` binding: a successful `read_mp4` still yields
`None` when `userdata` is absent, is an `Err`, or lacks `meta`;
`Err(_) => None`. -/
def mp4_probe (r : ProbeOutcome Mp4Root) : Option Metadata :=
  match r with
  | .ok root =>
    match root.userdata with
    | some (.ok (some m)) => some (mp4_to_metadata m)
    | some (.ok none) => none
    | some (.error _) => none
    | none => none
  | _ => none

/-- `Metadata::read_from_path`: open the file, probe FLAC, seek to 0,
probe ID3, seek to 0, probe MP4; return the first probe that produced a
record, `Ok(None)` when none did. Open and seek failures return
`Err(IO)`. -/
def read_from_path (f : FileModel) : Except MetadataReadError (Option Metadata) :=
  if !f.openOk then .error .ioErr
  else
    let flac_metadata := flac_probe f.flac
    if flac_metadata.isSome then .ok flac_metadata
    else if !f.seek1Ok then .error .ioErr
    else
      let mp3_metadata := id3_probe f.id3
      if mp3_metadata.isSome then .ok mp3_metadata
      else if !f.seek2Ok then .error .ioErr
      else
        let mp4_metadata := mp4_probe f.mp4
        if mp4_metadata.isSome then .ok mp4_metadata
        else .ok none

/-! ## Relational schema and save functions -/

/-- A row of `artist(id INTEGER PRIMARY KEY, name TEXT)`. -/
structure ArtistRow where
  id : Nat
  name : String
deriving DecidableEq, Repr

/-- A row of `album(id, name, artist_id, album_artist_id, year)`;
`album_artist_id` is never written by the code and omitted. -/
structure AlbumRow where
  id : Nat
  name : String
  artist_id : Nat
  year : Option String
deriving DecidableEq, Repr

/-- A row of `track(id, name UNIQUE, artist_id, album_id, year, number)`.
`name` is nullable (`Option`). -/
structure TrackRow where
  id : Nat
  name : Option String
  artist_id : Nat
  album_id : Nat
  year : Option String
  number : Nat
deriving DecidableEq, Repr

/-- The music tables of the database (the `config` table lives in
`Conn`). -/
structure DB where
  artists : List ArtistRow
  albums : List AlbumRow
  tracks : List TrackRow
deriving DecidableEq, Repr

/-- SQLite rowid allocation for an `INTEGER PRIMARY KEY` table without
`AUTOINCREMENT`: one more than the largest rowid currently in use. -/
def next_id (ids : List Nat) : Nat := ids.foldr max 0 + 1

/-- `DELETE FROM artist` with the schema `ON DELETE CASCADE` rules: all
artist rows go; album rows whose `artist_id` referenced a deleted artist
go; track rows whose `artist_id` referenced a deleted artist or whose
`album_id` referenced a deleted album go. -/
def delete_from_artist (db : DB) : DB :=
  let artistIds := db.artists.map (fun a => a.id)
  let deletedAlbumIds :=
    (db.albums.filter (fun a => artistIds.contains a.artist_id)).map (fun a => a.id)
  { artists := []
    albums := db.albums.filter (fun a => !artistIds.contains a.artist_id)
    tracks := db.tracks.filter (fun t =>
      !artistIds.contains t.artist_id && !deletedAlbumIds.contains t.album_id) }

/-- `save_artist(savepoint, artist)`: `SELECT id FROM artist WHERE name =
$name`; on `QueryReturnedNoRows`, `INSERT INTO artist(name)` and return
`last_insert_rowid()`. Returns the id and the updated table state. -/
def save_artist (db : DB) (artist : String) : Nat × DB :=
  match db.artists.find? (fun a => a.name == artist) with
  | some row => (row.id, db)
  | none =>
    let id := next_id (db.artists.map (fun a => a.id))
    (id, { db with artists := db.artists ++ [{ id := id, name := artist }] })

/-- `save_album(savepoint, artist_id, album, year)`: `SELECT id FROM
album WHERE name = $name`; on `QueryReturnedNoRows`, `INSERT INTO
album(artist_id, name, year)` and return `last_insert_rowid()`. -/
def save_album (db : DB) (artist_id : Nat) (album : String) (year : Option String) :
    Nat × DB :=
  match db.albums.find? (fun a => a.name == album) with
  | some row => (row.id, db)
  | none =>
    let id := next_id (db.albums.map (fun a => a.id))
    (id, { db with albums := db.albums ++
            [{ id := id, name := album, artist_id := artist_id, year := year }] })

/-- `save_track(savepoint, artist_id, album_id, metadata)`: `INSERT INTO
track(name, artist_id, album_id, year, number) .. ON CONFLICT(name) DO
UPDATE SET ..`. The `UNIQUE` constraint on `name` treats `NULL` as
distinct from everything, so a `NULL` name always inserts; a non-null
name conflicts exactly with an existing row carrying the same name, and
the conflicting row is overwritten with the excluded values. -/
def save_track (db : DB) (artist_id album_id : Nat) (md : Metadata) : DB :=
  match md.track_name with
  | some s =>
    if db.tracks.any (fun t => t.name == some s) then
      { db with tracks := db.tracks.map (fun t =>
          if t.name == some s then
            { t with artist_id := artist_id, album_id := album_id,
                     year := md.year, number := md.track_number }
          else t) }
    else
      let id := next_id (db.tracks.map (fun t => t.id))
      { db with tracks := db.tracks ++
          [{ id := id, name := some s, artist_id := artist_id,
             album_id := album_id, year := md.year, number := md.track_number }] }
  | none =>
    let id := next_id (db.tracks.map (fun t => t.id))
    { db with tracks := db.tracks ++
        [{ id := id, name := none, artist_id := artist_id,
           album_id := album_id, year := md.year, number := md.track_number }] }

/-! ## Scan driver (`cmd_scan`) -/

/-- `CommandScanError` from the source (error payloads dropped except the
metadata-read error). -/
inductive CommandScanError where
  | sqlite
  | walkDir
  | ioErr
  | metadataRead (err : MetadataReadError)
  | saveArtist
  | saveAlbum
  | saveTrack
deriving DecidableEq, Repr

/-- One entry yielded by the `walkdir` iterator: either the walker itself
fails (`result?`), or it yields a path whose subsequent processing is
described by a `FileModel`. `sqliteFail` injects an abstract SQLite
failure into the first save primitive executed for this entry, modelling
the `SQLite` error variants of the save functions; the pure list
operations themselves never fail. -/
inductive ScanEntry where
  | walkError
  | file (f : FileModel) (sqliteFail : Bool)

/-- `md.artist.clone().unwrap_or_else(|| "Unknown".to_owned())`: the name
`cmd_scan` passes to `save_artist`. -/
def artist_name (md : Metadata) : String := md.artist.getD "Unknown"

/-- `md.album.clone().unwrap_or_else(|| "Unknown".to_owned())`: the name
`cmd_scan` passes to `save_album`. -/
def album_name (md : Metadata) : String := md.album.getD "Unknown"

/-- The body of the `for` loop of `cmd_scan` for one walker entry:
propagate walker errors, propagate metadata-read errors, skip unsupported
files, and otherwise upsert artist, album, track with `"Unknown"`
substituted for an absent artist or album name. -/
def scan_step (db : DB) (e : ScanEntry) : Except CommandScanError DB :=
  match e with
  | .walkError => .error .walkDir
  | .file f sqliteFail =>
    match read_from_path f with
    | .error err => .error (.metadataRead err)
    | .ok none => .ok db
    | .ok (some md) =>
      if sqliteFail then .error .saveArtist
      else
        let arRes := save_artist db (artist_name md)
        let alRes := save_album arRes.2 arRes.1 (album_name md) md.year
        .ok (save_track alRes.2 arRes.1 alRes.1 md)

/-- The database connection: the `config` table plus the music tables. -/
structure Conn where
  config : ConfigTable
  db : DB
deriving DecidableEq, Repr

/-- `cmd_scan`: read `config.library` (its absence surfaces as the
`QueryReturnedNoRows` SQLite error), open a savepoint, `DELETE FROM
artist`, process every walker entry, and commit. The returned connection
is the committed state: the pending savepoint state on success, the
original state when any error aborts before `savepoint.commit()`. -/
def cmd_scan (conn : Conn) (entries : List ScanEntry) :
    Conn × Option CommandScanError :=
  match config_lookup conn.config "library" with
  | none => (conn, some .sqlite)
  | some _ =>
    match entries.foldlM scan_step (delete_from_artist conn.db) with
    | .ok db => ({ conn with db := db }, none)
    | .error e => (conn, some e)

/-- Referential integrity of the `track` table: every track row has an
`artist_id` and an `album_id` naming an existing artist and album row. -/
def ref_integrity (db : DB) : Bool :=
  db.tracks.all (fun t =>
    db.artists.any (fun a => a.id == t.artist_id) &&
    db.albums.any (fun a => a.id == t.album_id))

/-! ## `main` (exit code and error reporting) -/

/-- `AppError`: each variant wraps a sub-error, of which only the
rendered message matters here, so the constructors carry that message. -/
inductive AppError where
  | openDatabase (msg : String)
  | initDatabase (msg : String)
  | commandConfig (msg : String)
  | commandScan (msg : String)
deriving DecidableEq, Repr

/-- `impl fmt::Display for AppError`: the `InitDatabase` arm falls
through to the catch-all `_ => write!(f, "foobar")`. -/
def AppError.display : AppError → String
  | .openDatabase m => m
  | .commandConfig m => m
  | .commandScan m => m
  | .initDatabase _ => "foobar"

/-- The observable result of running `main`: what (if anything) the
error branch printed to standard output, and the process exit code. -/
structure MainOutcome where
  printed : Option String
  exit_code : Nat
deriving DecidableEq, Repr

/-- `main`, given the result of `do_main`: `if let Err(err) = .. {
println!("{}", err) }`. `main` returns `()` either way, so the process
exit status is 0 on both paths. -/
def main_run (r : Except AppError Unit) : MainOutcome :=
  match r with
  | .ok _ => { printed := none, exit_code := 0 }
  | .error e => { printed := some e.display, exit_code := 0 }

/-! ## Concrete fixtures used by witnesses and counterexamples -/

/-- A path that does not exist. -/
def fs_missing : FsPath :=
  { pathExists := false, isDir := false, metadataOk := false, canonical := none }

/-- An existing directory whose canonical form differs from the raw
input string. -/
def fs_dir : FsPath :=
  { pathExists := true, isDir := true, metadataOk := true,
    canonical := some "/home/user/music" }

/-- A metadata record with no artist but an album. -/
def md_absent_artist : Metadata :=
  { artist := none, album := some "Geogaddi", album_artist := none,
    year := none, track_name := none, track_number := 0 }

/-- An ID3 tag with partial fields. -/
def id3_sample_tag : Id3Tag :=
  { artist := some "Aphex Twin", album := none, album_artist := none,
    year := some 1992, title := some "Xtal", track := none }

/-- A readable file that is not FLAC but carries `id3_sample_tag`. -/
def id3_sample_file : FileModel :=
  { openOk := true, flac := .parseError, seek1Ok := true,
    id3 := .ok id3_sample_tag, seek2Ok := true, mp4 := .parseError }

/-- A readable non-FLAC file whose first rewind seek fails. -/
def seek1_fail_file : FileModel :=
  { openOk := true, flac := .parseError, seek1Ok := false,
    id3 := .parseError, seek2Ok := true, mp4 := .parseError }

/-- A file whose FLAC probe fails with an I/O error while the other two
probes report a parse failure. -/
def reader_io_error_file : FileModel :=
  { openOk := true, flac := .ioError, seek1Ok := true,
    id3 := .parseError, seek2Ok := true, mp4 := .parseError }

/-- A FLAC tag whose ARTIST comment holds the empty string. -/
def empty_artist_tag : FlacTag :=
  { comments := [("ARTIST", ""), ("ALBUM", "Geogaddi"), ("TITLE", "Music is Math")] }

/-- A readable FLAC file carrying `empty_artist_tag`. -/
def empty_artist_file : FileModel :=
  { openOk := true, flac := .ok empty_artist_tag, seek1Ok := true,
    id3 := .parseError, seek2Ok := true, mp4 := .parseError }

/-- Two artists, and an album filed under the first of them. -/
def album_collision_db : DB :=
  { artists := [{ id := 3, name := "Artist A" }, { id := 7, name := "Artist B" }]
    albums := [{ id := 5, name := "Greatest Hits", artist_id := 3, year := some "1990" }]
    tracks := [] }

/-- A connection with the library key set and one stale artist row. -/
def sample_conn : Conn :=
  { config := [("library", ConfigValue.str "/music")]
    db := { artists := [{ id := 1, name := "Old" }], albums := [], tracks := [] } }

/-- A fully tagged FLAC file. -/
def flac_sample_tag : FlacTag :=
  { comments := [("ARTIST", "Boards of Canada"), ("ALBUM", "Geogaddi"),
                 ("DATE", "2002"), ("TITLE", "Music is Math"), ("TRACK_NUMBER", "5")] }

/-- A readable file carrying `flac_sample_tag`. -/
def flac_sample_file : FileModel :=
  { openOk := true, flac := .ok flac_sample_tag, seek1Ok := true,
    id3 := .parseError, seek2Ok := true, mp4 := .parseError }

/-- The database state produced by scanning `flac_sample_file` over
`sample_conn`. -/
def scanned_db : DB :=
  { artists := [{ id := 1, name := "Boards of Canada" }]
    albums := [{ id := 1, name := "Geogaddi", artist_id := 1, year := some "2002" }]
    tracks := [{ id := 1, name := some "Music is Math", artist_id := 1,
                 album_id := 1, year := some "2002", number := 5 }] }

/-! ## Theorems -/

/-- Claim C10: every erroring invocation of the `config set` command (an
unrecognized key, a library path failing validation, or an unparsable
`scan_parallelism` value) leaves the config table unchanged, because all
key and value validation completes before the single
`INSERT .. ON CONFLICT`, which is the only write the command executes;
on success the table is exactly the result of that one upsert. -/
theorem cmd_config_set_atomic (t : ConfigTable) (fs : FsPath) (key value : String) :
    ((cmd_config_set t fs key value).2.isSome → (cmd_config_set t fs key value).1 = t) ∧
    ((cmd_config_set t fs key value).2 = none →
      ∃ v, (cmd_config_set t fs key value).1 = config_upsert t key v) := by
  unfold cmd_config_set
  split
  · cases h : get_library_path fs value with
    | error e => simp [h]
    | ok dir => simp [h]
  · cases h : parse_usize value with
    | none => simp [h]
    | some n => simp [h]
  · simp

/-- Witness for C10: setting `library` to a missing path errors and the
empty config table stays empty. -/
theorem cmd_config_set_atomic_witness :
    (cmd_config_set [] fs_missing "library" "/nope").1 = [] :=
  (cmd_config_set_atomic [] fs_missing "library" "/nope").1 rfl

/-- Claim C8: setting the config key `library` to a path that does not
exist fails with `DoestNotExist`; to an existing path that is not a
directory fails with `NotADirectory`; otherwise the canonicalized form of
the path, not the raw input string, is what the single upsert stores in
the config table. -/
theorem config_library_validation (t : ConfigTable) (fs : FsPath) (value c : String) :
    (fs.pathExists = false →
      cmd_config_set t fs "library" value =
        (t, some (.getLibraryPath (.doestNotExist value)))) ∧
    (fs.pathExists = true → fs.isDir = false →
      cmd_config_set t fs "library" value =
        (t, some (.getLibraryPath (.notADirectory value)))) ∧
    (fs.pathExists = true → fs.isDir = true → fs.metadataOk = true →
      fs.canonical = some c →
      cmd_config_set t fs "library" value =
        (config_upsert t "library" (.str c), none)) := by
  refine ⟨fun h1 => ?_, fun h1 h2 => ?_, fun h1 h2 h3 h4 => ?_⟩
  · simp [cmd_config_set, get_library_path, h1]
  · simp [cmd_config_set, get_library_path, h1, h2]
  · simp [cmd_config_set, get_library_path, h1, h2, h3, h4]

/-- Witness for C8: the stored value is the canonical path
`/home/user/music`, not the raw argument `music`. -/
theorem config_library_validation_witness :
    cmd_config_set [] fs_dir "library" "music" =
      ([("library", ConfigValue.str "/home/user/music")], none) := by
  have h := (config_library_validation [] fs_dir "music" "/home/user/music").2.2
    rfl rfl rfl rfl
  simpa [config_upsert] using h

/-- Claim C9 as amended: the error message is printed to standard output,
but the process exit code is 0 on every path, error or not, because
`main` discards the error after printing it and returns unit. -/
theorem main_exits_zero_prints_error (r : Except AppError Unit) :
    (main_run r).exit_code = 0 ∧
    (∀ e, r = .error e → (main_run r).printed = some e.display) ∧
    (r = .ok () → (main_run r).printed = none) := by
  cases r with
  | ok u => cases u; simp [main_run]
  | error e => simp [main_run]

/-- Witness for the amended C9: a database-open failure is printed to
standard output and the exit code is still 0. -/
theorem main_exits_zero_witness :
    (main_run (Except.error (AppError.openDatabase "db locked"))).exit_code = 0 ∧
    (main_run (Except.error (AppError.openDatabase "db locked"))).printed =
      some "db locked" := by
  have h := main_exits_zero_prints_error (Except.error (AppError.openDatabase "db locked"))
  exact ⟨h.1, h.2.1 _ rfl⟩

/-- Counterexample to C9 as stated: a surfaced scan error still exits
with code 0, refuting the claim that the exit code is non-zero whenever
an error is surfaced. -/
theorem main_nonzero_exit_counterexample :
    (main_run (.error (.commandScan "scanning failed"))).exit_code = 0 := rfl

/-- Claim C5: `save_album` is keyed on the album name alone: if a row
with that exact name exists, its id is returned and nothing is written
(whatever artist the existing album belongs to, and whatever artist id
and year were supplied); otherwise a new row with the supplied artist id,
name, and year is inserted and its id is returned. -/
theorem save_album_keyed_on_name_only (db : DB) (artist_id : Nat) (album : String)
    (year : Option String) :
    (∀ row, db.albums.find? (fun a => a.name == album) = some row →
      save_album db artist_id album year = (row.id, db)) ∧
    (db.albums.find? (fun a => a.name == album) = none →
      save_album db artist_id album year =
        (next_id (db.albums.map (fun a => a.id)),
         { db with albums := db.albums ++
            [{ id := next_id (db.albums.map (fun a => a.id)), name := album,
               artist_id := artist_id, year := year }] })) := by
  constructor
  · intro row h
    simp [save_album, h]
  · intro h
    simp [save_album, h]

/-- Witness for C5: an album of artist 3 is found by name when saving for
artist 7; its id comes back and the database is untouched. -/
theorem save_album_keyed_on_name_only_witness :
    save_album album_collision_db 7 "Greatest Hits" (some "2001") =
      (5, album_collision_db) := by
  have h := (save_album_keyed_on_name_only album_collision_db 7 "Greatest Hits"
    (some "2001")).1
    { id := 5, name := "Greatest Hits", artist_id := 3, year := some "1990" } (by rfl)
  simpa using h

/-- Claim C3: `read_from_path` probes FLAC, then ID3, then MP4 in that
fixed order, rewinding the stream to offset 0 before each probe after
the first (a failing rewind is observable as an error); it returns the
canonical record of the first successful probe, and `Ok(None)` when all
three probes fail. -/
theorem read_from_path_probe_order (f : FileModel) (hopen : f.openOk = true) :
    (∀ md, flac_probe f.flac = some md → read_from_path f = .ok (some md)) ∧
    (flac_probe f.flac = none → f.seek1Ok = false → read_from_path f = .error .ioErr) ∧
    (flac_probe f.flac = none → f.seek1Ok = true →
      ∀ md, id3_probe f.id3 = some md → read_from_path f = .ok (some md)) ∧
    (flac_probe f.flac = none → f.seek1Ok = true → id3_probe f.id3 = none →
      f.seek2Ok = false → read_from_path f = .error .ioErr) ∧
    (flac_probe f.flac = none → f.seek1Ok = true → id3_probe f.id3 = none →
      f.seek2Ok = true → ∀ md, mp4_probe f.mp4 = some md →
      read_from_path f = .ok (some md)) ∧
    (flac_probe f.flac = none → f.seek1Ok = true → id3_probe f.id3 = none →
      f.seek2Ok = true → mp4_probe f.mp4 = none → read_from_path f = .ok none) := by
  unfold read_from_path
  refine ⟨fun md h => ?_, fun h1 h2 => ?_, fun h1 h2 md h => ?_, fun h1 h2 h3 h4 => ?_,
    fun h1 h2 h3 h4 md h => ?_, fun h1 h2 h3 h4 h5 => ?_⟩ <;> simp_all

/-- Witness for C3: a file that is not FLAC but carries an ID3 tag
yields the record of the second probe. -/
theorem read_from_path_probe_order_witness :
    read_from_path id3_sample_file = .ok (some (id3_to_metadata id3_sample_tag)) := by
  have h := (read_from_path_probe_order id3_sample_file rfl).2.2.1
    rfl rfl (id3_to_metadata id3_sample_tag) rfl
  exact h

/-- Claim C7 as amended: `read_from_path` propagates I/O failures of
`File::open` and of the two explicit seeks between probes; an error
raised inside a tag reader, including an underlying I/O error, is
matched by `Err(_) => None` and treated as a negative probe result
rather than propagated. -/
theorem read_from_path_io_errors (f : FileModel) :
    (f.openOk = false → read_from_path f = .error .ioErr) ∧
    (f.openOk = true → flac_probe f.flac = none → f.seek1Ok = false →
      read_from_path f = .error .ioErr) ∧
    (f.openOk = true → flac_probe f.flac = none → f.seek1Ok = true →
      id3_probe f.id3 = none → f.seek2Ok = false →
      read_from_path f = .error .ioErr) ∧
    (f.openOk = true → f.flac = .ioError → f.seek1Ok = true →
      f.id3 = .ioError → f.seek2Ok = true → f.mp4 = .ioError →
      read_from_path f = .ok none) := by
  unfold read_from_path
  refine ⟨fun h1 => ?_, fun h1 h2 h3 => ?_, fun h1 h2 h3 h4 h5 => ?_,
    fun h1 h2 h3 h4 h5 h6 => ?_⟩ <;> simp_all [flac_probe, id3_probe, mp4_probe]

/-- Witness for the amended C7: a failing first rewind is propagated as
an I/O error. -/
theorem read_from_path_io_errors_witness :
    read_from_path seek1_fail_file = .error .ioErr :=
  (read_from_path_io_errors seek1_fail_file).2.1 rfl rfl rfl

/-- Counterexample to C7 as stated: an I/O error raised inside the FLAC
reader is not reported to the caller; with the other probes failing to
parse, `read_from_path` returns `Ok(None)` instead of an error. -/
theorem reader_io_error_swallowed_counterexample :
    read_from_path reader_io_error_file = .ok none := rfl

/-- Counterexample to C4 as stated: a FLAC file whose ARTIST comment is
the empty string is extracted as `Some` metadata with
`artist = Some("")`, and the name the scan driver then passes to
`save_artist` is the empty string, not a non-empty one. -/
theorem empty_artist_name_counterexample :
    read_from_path empty_artist_file = .ok (some (flac_to_metadata empty_artist_tag)) ∧
    (flac_to_metadata empty_artist_tag).artist = some "" ∧
    artist_name (flac_to_metadata empty_artist_tag) = "" := ⟨rfl, rfl, rfl⟩

/-- Claim C4 as amended: the scan driver substitutes the synthetic name
`"Unknown"` exactly when the extracted artist or album field is absent
and passes the extracted value through unchanged otherwise; the names
given to `save_artist` and `save_album` are therefore non-empty unless a
present tag value is itself the empty string. -/
theorem unknown_substitution (md : Metadata) :
    (md.artist = none → artist_name md = "Unknown") ∧
    (∀ s, md.artist = some s → artist_name md = s) ∧
    (md.album = none → album_name md = "Unknown") ∧
    (∀ s, md.album = some s → album_name md = s) ∧
    ((∀ s, md.artist = some s → s ≠ "") → artist_name md ≠ "") ∧
    ((∀ s, md.album = some s → s ≠ "") → album_name md ≠ "") := by
  unfold artist_name album_name
  cases ha : md.artist <;> cases hb : md.album <;> simp_all

/-- Witness for the amended C4: an absent artist becomes `"Unknown"`, a
present album passes through. -/
theorem unknown_substitution_witness :
    artist_name md_absent_artist = "Unknown" ∧
    album_name md_absent_artist = "Geogaddi" := by
  have h := unknown_substitution md_absent_artist
  exact ⟨h.1 rfl, h.2.2.2.1 _ rfl⟩

/-- A walker error anywhere in the entry list prevents the fold of
`scan_step` from succeeding. -/
theorem foldlM_scan_step_walkError (entries : List ScanEntry) (db : DB)
    (h : ScanEntry.walkError ∈ entries) :
    ∀ db', entries.foldlM scan_step db ≠ Except.ok db' := by
  induction entries generalizing db with
  | nil => cases h
  | cons e rest ih =>
    intro db' hok
    rw [List.foldlM_cons] at hok
    cases e with
    | walkError =>
      have hstep : scan_step db ScanEntry.walkError = Except.error .walkDir := rfl
      rw [hstep] at hok
      exact Except.noConfusion hok
    | file f s =>
      have hmem : ScanEntry.walkError ∈ rest := by
        rcases List.mem_cons.mp h with heq | hmem
        · exact absurd heq (by simp)
        · exact hmem
      cases hstep : scan_step db (ScanEntry.file f s) with
      | error err => rw [hstep] at hok; exact Except.noConfusion hok
      | ok db1 =>
        rw [hstep] at hok
        exact ih db1 hmem db' hok

/-- Claim C1: `cmd_scan` executes `DELETE FROM artist` first and every
artist/album/track upsert inside the same enclosing savepoint, and
commits exactly when the whole walk completes: whenever any error is
surfaced the connection keeps its pre-scan state (no partial writes
survive), on success the committed database is the fold of the per-entry
steps over the deleted state with the config table untouched, and a walk
error anywhere in the entries guarantees the scan does not commit. -/
theorem cmd_scan_transaction (conn : Conn) (entries : List ScanEntry) :
    ((cmd_scan conn entries).2.isSome = true → (cmd_scan conn entries).1 = conn) ∧
    ((cmd_scan conn entries).2 = none →
      entries.foldlM scan_step (delete_from_artist conn.db) =
        Except.ok (cmd_scan conn entries).1.db ∧
      (cmd_scan conn entries).1.config = conn.config) ∧
    (ScanEntry.walkError ∈ entries → (cmd_scan conn entries).2.isSome = true) := by
  unfold cmd_scan
  cases hc : config_lookup conn.config "library" with
  | none => simp
  | some v =>
    cases hf : entries.foldlM scan_step (delete_from_artist conn.db) with
    | error e => simp [hf]
    | ok db' =>
      refine ⟨by simp, by intro _; simp, fun hmem => ?_⟩
      exact absurd hf (foldlM_scan_step_walkError entries _ hmem db')

/-- Witness for C1: a scan whose only entry is a walker error leaves the
connection, stale artist row included, exactly as it was. -/
theorem cmd_scan_transaction_witness :
    (cmd_scan sample_conn [ScanEntry.walkError]).1 = sample_conn :=
  (cmd_scan_transaction sample_conn [ScanEntry.walkError]).1 rfl

/-- `save_artist` keeps the album and track tables, keeps every existing
artist row, and returns the id of a row present afterwards. -/
theorem save_artist_spec (db : DB) (name : String) :
    (save_artist db name).2.albums = db.albums ∧
    (save_artist db name).2.tracks = db.tracks ∧
    (∀ a ∈ db.artists, a ∈ (save_artist db name).2.artists) ∧
    (∃ a ∈ (save_artist db name).2.artists, a.id = (save_artist db name).1) := by
  unfold save_artist
  cases hf : db.artists.find? (fun a => a.name == name) with
  | some row =>
    refine ⟨rfl, rfl, fun a ha => ha, ⟨row, List.mem_of_find?_eq_some hf, rfl⟩⟩
  | none =>
    refine ⟨rfl, rfl, fun a ha => List.mem_append_left _ ha, ?_⟩
    exact ⟨{ id := next_id (db.artists.map (fun a => a.id)), name := name },
      List.mem_append_right _ (List.mem_singleton.mpr rfl), rfl⟩

/-- `save_album` keeps the artist and track tables, keeps every existing
album row, and returns the id of a row present afterwards. -/
theorem save_album_spec (db : DB) (aid : Nat) (album : String) (year : Option String) :
    (save_album db aid album year).2.artists = db.artists ∧
    (save_album db aid album year).2.tracks = db.tracks ∧
    (∀ a ∈ db.albums, a ∈ (save_album db aid album year).2.albums) ∧
    (∃ a ∈ (save_album db aid album year).2.albums,
      a.id = (save_album db aid album year).1) := by
  unfold save_album
  cases hf : db.albums.find? (fun a => a.name == album) with
  | some row =>
    refine ⟨rfl, rfl, fun a ha => ha, ⟨row, List.mem_of_find?_eq_some hf, rfl⟩⟩
  | none =>
    refine ⟨rfl, rfl, fun a ha => List.mem_append_left _ ha, ?_⟩
    exact ⟨{ id := next_id (db.albums.map (fun a => a.id)), name := album,
             artist_id := aid, year := year },
      List.mem_append_right _ (List.mem_singleton.mpr rfl), rfl⟩

/-- `save_track` keeps the artist and album tables, and every track row
afterwards either was already present or carries the two ids being
saved. -/
theorem save_track_spec (db : DB) (aid alid : Nat) (md : Metadata) :
    (save_track db aid alid md).artists = db.artists ∧
    (save_track db aid alid md).albums = db.albums ∧
    (∀ t ∈ (save_track db aid alid md).tracks,
      t ∈ db.tracks ∨ (t.artist_id = aid ∧ t.album_id = alid)) := by
  cases hname : md.track_name with
  | none =>
    simp only [save_track, hname]
    refine ⟨by trivial, by trivial, fun t ht => ?_⟩
    rcases List.mem_append.mp ht with h1 | h2
    · exact Or.inl h1
    · rw [List.mem_singleton.mp h2]; exact Or.inr ⟨rfl, rfl⟩
  | some s =>
    simp only [save_track, hname]
    by_cases hc : (db.tracks.any fun t => t.name == some s) = true
    · rw [if_pos hc]
      refine ⟨rfl, rfl, fun t ht => ?_⟩
      rcases List.mem_map.mp ht with ⟨t0, ht0, heq⟩
      by_cases he : (t0.name == some s) = true
      · rw [if_pos he] at heq
        rw [← heq]; exact Or.inr ⟨rfl, rfl⟩
      · rw [if_neg he] at heq
        rw [← heq]; exact Or.inl ht0
    · rw [if_neg hc]
      refine ⟨rfl, rfl, fun t ht => ?_⟩
      rcases List.mem_append.mp ht with h1 | h2
      · exact Or.inl h1
      · rw [List.mem_singleton.mp h2]; exact Or.inr ⟨rfl, rfl⟩

/-- The boolean `ref_integrity` unfolded to its logical reading. -/
theorem ref_integrity_iff (db : DB) :
    ref_integrity db = true ↔
      ∀ t ∈ db.tracks, (∃ a ∈ db.artists, a.id = t.artist_id) ∧
        (∃ al ∈ db.albums, al.id = t.album_id) := by
  simp [ref_integrity, List.all_eq_true, List.any_eq_true, Bool.and_eq_true]

/-- On a database with track integrity, `DELETE FROM artist` cascades
away every track row. -/
theorem delete_from_artist_tracks_nil (db : DB) (h : ref_integrity db = true) :
    (delete_from_artist db).tracks = [] := by
  unfold delete_from_artist
  rw [List.filter_eq_nil_iff]
  intro t ht
  obtain ⟨⟨a, ha, haid⟩, -⟩ := (ref_integrity_iff db).mp h t ht
  have hmem : t.artist_id ∈ db.artists.map (fun a => a.id) :=
    List.mem_map.mpr ⟨a, ha, haid⟩
  simp [hmem]

/-- `DELETE FROM artist` preserves track integrity (vacuously: no track
survives). -/
theorem delete_from_artist_integrity (db : DB) (h : ref_integrity db = true) :
    ref_integrity (delete_from_artist db) = true := by
  rw [ref_integrity_iff, delete_from_artist_tracks_nil db h]
  intro t ht
  cases ht

/-- One successful scan step preserves track integrity. -/
theorem scan_step_integrity (db : DB) (e : ScanEntry) (db' : DB)
    (h0 : ref_integrity db = true) (h : scan_step db e = .ok db') :
    ref_integrity db' = true := by
  cases e with
  | walkError => exact Except.noConfusion h
  | file f s =>
    cases hr : read_from_path f with
    | error err =>
      simp only [scan_step, hr] at h
      exact Except.noConfusion h
    | ok mdOpt =>
      cases mdOpt with
      | none =>
        simp only [scan_step, hr] at h
        rw [← Except.ok.inj h]; exact h0
      | some md =>
        simp only [scan_step, hr] at h
        by_cases hs : s = true
        · rw [if_pos hs] at h; exact Except.noConfusion h
        · rw [if_neg hs] at h
          have hdb' : db' = save_track (save_album (save_artist db (artist_name md)).2
              (save_artist db (artist_name md)).1 (album_name md) md.year).2
              (save_artist db (artist_name md)).1
              (save_album (save_artist db (artist_name md)).2
                (save_artist db (artist_name md)).1 (album_name md) md.year).1 md :=
            (Except.ok.inj h).symm
          have hart := save_artist_spec db (artist_name md)
          have halb := save_album_spec (save_artist db (artist_name md)).2
            (save_artist db (artist_name md)).1 (album_name md) md.year
          have htrk := save_track_spec
            (save_album (save_artist db (artist_name md)).2
              (save_artist db (artist_name md)).1 (album_name md) md.year).2
            (save_artist db (artist_name md)).1
            (save_album (save_artist db (artist_name md)).2
              (save_artist db (artist_name md)).1 (album_name md) md.year).1 md
          rw [ref_integrity_iff]
          intro t ht
          rw [hdb'] at ht
          rcases htrk.2.2 t ht with hold | ⟨hta, htal⟩
          · rw [halb.2.1, hart.2.1] at hold
            obtain ⟨⟨a, ha, haeq⟩, ⟨al, hal, haleq⟩⟩ := (ref_integrity_iff db).mp h0 t hold
            constructor
            · refine ⟨a, ?_, haeq⟩
              rw [hdb', htrk.1, halb.1]
              exact hart.2.2.1 a ha
            · refine ⟨al, ?_, haleq⟩
              rw [hdb', htrk.2.1]
              apply halb.2.2.1
              rw [← hart.1] at hal
              exact hal
          · constructor
            · obtain ⟨a, ha, haeq⟩ := hart.2.2.2
              refine ⟨a, ?_, by rw [haeq, hta]⟩
              rw [hdb', htrk.1, halb.1]
              exact ha
            · obtain ⟨al, hal, haleq⟩ := halb.2.2.2
              refine ⟨al, ?_, by rw [haleq, htal]⟩
              rw [hdb', htrk.2.1]
              exact hal

/-- The whole entry fold preserves track integrity. -/
theorem foldlM_scan_step_integrity (entries : List ScanEntry) (db db' : DB)
    (h0 : ref_integrity db = true)
    (h : entries.foldlM scan_step db = .ok db') :
    ref_integrity db' = true := by
  induction entries generalizing db with
  | nil =>
    rw [List.foldlM_nil] at h
    rw [← Except.ok.inj h]; exact h0
  | cons e rest ih =>
    rw [List.foldlM_cons] at h
    cases hstep : scan_step db e with
    | error err => rw [hstep] at h; exact Except.noConfusion h
    | ok db1 =>
      rw [hstep] at h
      exact ih db1 (scan_step_integrity db e db1 h0 hstep) h

/-- Claim C2: after any successful scan started from a database whose
track table satisfies referential integrity, every row of the track
table references an existing artist row through `artist_id` and an
existing album row through `album_id`. -/
theorem scan_ref_integrity (conn : Conn) (entries : List ScanEntry)
    (h0 : ref_integrity conn.db = true)
    (h : (cmd_scan conn entries).2 = none) :
    ref_integrity (cmd_scan conn entries).1.db = true := by
  unfold cmd_scan at h ⊢
  cases hc : config_lookup conn.config "library" with
  | none => rw [hc] at h; simp at h
  | some v =>
    rw [hc] at h
    cases hf : entries.foldlM scan_step (delete_from_artist conn.db) with
    | error e => rw [hf] at h; simp at h
    | ok db' =>
      simp only [hf]
      exact foldlM_scan_step_integrity entries _ db'
        (delete_from_artist_integrity conn.db h0) hf

/-- Witness for C2: scanning one fully tagged FLAC file succeeds and the
resulting track table satisfies referential integrity. -/
theorem scan_ref_integrity_witness :
    ref_integrity (cmd_scan sample_conn [ScanEntry.file flac_sample_file false]).1.db
      = true :=
  scan_ref_integrity sample_conn [ScanEntry.file flac_sample_file false]
    (by rfl) (by rfl)

/-- `save_artist` preserves the no-duplicate-names invariant of the
artist table: it inserts only when the exact name is absent. -/
theorem save_artist_names_nodup (db : DB) (name : String)
    (h : (db.artists.map (fun a => a.name)).Nodup) :
    ((save_artist db name).2.artists.map (fun a => a.name)).Nodup := by
  unfold save_artist
  cases hf : db.artists.find? (fun a => a.name == name) with
  | some row => exact h
  | none =>
    simp only [List.map_append]
    rw [List.nodup_append]
    refine ⟨h, List.nodup_singleton _, ?_⟩
    intro x hx hx2
    rcases List.mem_map.mp hx with ⟨a, ha, haeq⟩
    have hne := List.find?_eq_none.mp hf a ha
    have hx2' : x = name := by simpa using hx2
    apply hne
    simp [haeq, hx2']

/-- One successful scan step preserves the no-duplicate-names invariant
of the artist table. -/
theorem scan_step_names_nodup (db : DB) (e : ScanEntry) (db' : DB)
    (h0 : (db.artists.map (fun a => a.name)).Nodup)
    (h : scan_step db e = .ok db') :
    (db'.artists.map (fun a => a.name)).Nodup := by
  cases e with
  | walkError => exact Except.noConfusion h
  | file f s =>
    cases hr : read_from_path f with
    | error err =>
      simp only [scan_step, hr] at h
      exact Except.noConfusion h
    | ok mdOpt =>
      cases mdOpt with
      | none =>
        simp only [scan_step, hr] at h
        rw [← Except.ok.inj h]; exact h0
      | some md =>
        simp only [scan_step, hr] at h
        by_cases hs : s = true
        · rw [if_pos hs] at h; exact Except.noConfusion h
        · rw [if_neg hs] at h
          have hdb' := (Except.ok.inj h).symm
          have htrk := save_track_spec (save_album (save_artist db (artist_name md)).2
            (save_artist db (artist_name md)).1 (album_name md) md.year).2
            (save_artist db (artist_name md)).1
            (save_album (save_artist db (artist_name md)).2
              (save_artist db (artist_name md)).1 (album_name md) md.year).1 md
          have halb := save_album_spec (save_artist db (artist_name md)).2
            (save_artist db (artist_name md)).1 (album_name md) md.year
          rw [hdb', htrk.1, halb.1]
          exact save_artist_names_nodup db (artist_name md) h0

/-- The whole entry fold preserves the no-duplicate-names invariant. -/
theorem foldlM_scan_step_names_nodup (pre : List ScanEntry) (db db' : DB)
    (h0 : (db.artists.map (fun a => a.name)).Nodup)
    (h : pre.foldlM scan_step db = .ok db') :
    (db'.artists.map (fun a => a.name)).Nodup := by
  induction pre generalizing db with
  | nil =>
    rw [List.foldlM_nil] at h
    rw [← Except.ok.inj h]; exact h0
  | cons e rest ih =>
    rw [List.foldlM_cons] at h
    cases hstep : scan_step db e with
    | error err => rw [hstep] at h; exact Except.noConfusion h
    | ok db1 =>
      rw [hstep] at h
      exact ih db1 (scan_step_names_nodup db e db1 h0 hstep) h

/-- Claim C6: during and after any scan — that is, in the table state
reached after the initial `DELETE FROM artist` and any prefix `pre` of
the walked entries — the artist table never contains two rows with the
same name (exact string match): `save_artist` looks up by exact name and
inserts only when no row with that name exists. -/
theorem scan_artist_names_unique (conn : Conn) (pre : List ScanEntry) (db' : DB)
    (h : pre.foldlM scan_step (delete_from_artist conn.db) = .ok db') :
    (db'.artists.map (fun a => a.name)).Nodup := by
  apply foldlM_scan_step_names_nodup pre _ db' ?_ h
  unfold delete_from_artist
  exact List.nodup_nil

/-- Witness for C6: the artist table produced by scanning one FLAC file
has pairwise distinct names. -/
theorem scan_artist_names_unique_witness :
    (scanned_db.artists.map (fun a => a.name)).Nodup :=
  scan_artist_names_unique sample_conn [ScanEntry.file flac_sample_file false]
    scanned_db (by rfl)

end Zik
